import Mathlib

/-!
Shallow embedding of the MCP streaming server core of this repository:
`app/api/routes.py` (OAuth token endpoint, session table, SSE stream
handler, JSON-RPC dispatch) and `app/mcp/tool_registry.py` (tool registry).

Python dictionaries are modelled as association lists, JSON values as an
inductive type, raised exceptions as `Except`, Redis as an association
list keyed by strings, and wall-clock timestamps as natural numbers
(seconds).  Random identifiers (uuid4 session ids, `os.urandom` codes and
tokens) are passed in as parameters.
-/

namespace MCPServer

/-- JSON values as manipulated by the Python handlers.  Python `None`
inside a JSON document is `null`. -/
inductive Json where
  | null
  | bool (b : Bool)
  | num (n : Int)
  | str (s : String)
  | arr (elems : List Json)
  | obj (fields : List (String × Json))

/-- A parsed JSON object (Python dict), field order preserved. -/
abbrev JObj := List (String × Json)

/-- Python `d.get(k)`: `None` when the key is absent. -/
def jget (o : JObj) (k : String) : Option Json := o.lookup k

/-- Python value interpolated into the `"Method not found: {method}"`
message.  Only string methods are exercised by the theorems below; the
rendering of non-string values is simplified. -/
def methodText : Option Json → String
  | some (.str s) => s
  | _ => "None"

/-- Python `None` for an absent `id` is serialised as JSON `null` in the
response object. -/
def idJson : Option Json → Json
  | none => .null
  | some j => j

/-- Python `request_data.get("params", {})`.  A `params` value that is
present but not a mapping would raise inside the handler; such requests
are outside the modelled well-formed domain. -/
def paramsObj (req : JObj) : JObj :=
  match jget req "params" with
  | some (.obj p) => p
  | _ => []

-- ---------------------------------------------------------------------
-- app/mcp/models.py and app/mcp/base.py
-- ---------------------------------------------------------------------

/-- Embedding of `ToolMetadata` (pydantic model) from `app/mcp/models.py`. -/
structure ToolMetadata where
  name : String
  description : String
  ecosystem : String
  version : String
  requires_secrets : List String
  docs_path : Option String
  enabled : Bool

/-- Embedding of `ToolResponse` from `app/mcp/models.py`. -/
structure ToolResponse where
  status : String
  data : JObj
  metadata : JObj

/-- Embedding of `ToolMetadata.model_dump()`: the serialised dict, in field order. -/
def ToolMetadata.model_dump (m : ToolMetadata) : JObj :=
  [("name", .str m.name),
   ("description", .str m.description),
   ("ecosystem", .str m.ecosystem),
   ("version", .str m.version),
   ("requires_secrets", .arr (m.requires_secrets.map .str)),
   ("docs_path", match m.docs_path with | some p => .str p | none => .null),
   ("enabled", .bool m.enabled)]

/-- Embedding of `ToolResponse.model_dump()`. -/
def ToolResponse.model_dump (r : ToolResponse) : JObj :=
  [("status", .str r.status), ("data", .obj r.data), ("metadata", .obj r.metadata)]

/-- Embedding of `BaseTool` from `app/mcp/base.py`: metadata plus a `run` method.
`run` receives the `arguments` mapping and either returns a
`ToolResponse` or raises (modelled by `Except` carrying the exception
message). -/
structure BaseTool where
  metadata : ToolMetadata
  run : Json → Except String ToolResponse

/-- Embedding of `BaseTool.serialize()` returns `self.metadata.model_dump()`. -/
def BaseTool.serialize (t : BaseTool) : JObj := t.metadata.model_dump

-- ---------------------------------------------------------------------
-- app/mcp/tool_registry.py
-- ---------------------------------------------------------------------

/-- Embedding of `ToolRegistry._tools`: the Python dict from tool name to tool,
insertion ordered, keys unique. -/
structure ToolRegistry where
  tools : List (String × BaseTool)

/-- Exceptions that can escape `ToolRegistry.execute`:
`ToolNotFoundError` (raised by the registry itself) or any exception
raised by the tool body.  The quote characters Python puts around the
name in the `ToolNotFoundError` message are elided. -/
inductive ExecError where
  | toolNotFound (tool_name : Option Json)
  | toolRaised (msg : String)

/-- The `str(e)` seen by the protocol-layer exception handler. -/
def ExecError.message : ExecError → String
  | .toolNotFound n => "No tool registered with name " ++ methodText n
  | .toolRaised m => m

/-- Embedding of `self._tools.get(tool_name)`: only a string name can match a key. -/
def ToolRegistry.lookupTool (reg : ToolRegistry) (tool_name : Option Json) : Option BaseTool :=
  match tool_name with
  | some (.str s) => reg.tools.lookup s
  | _ => none

/-- Embedding of `ToolRegistry.list_tools()` as called by the routes layer (no
ecosystem filter argument): serialise every registered tool. -/
def ToolRegistry.list_tools (reg : ToolRegistry) : List JObj :=
  reg.tools.map (fun p => p.2.serialize)

/-- Embedding of `ToolRegistry.execute(tool_name, params)`: raise `ToolNotFoundError`
when the name is not registered, otherwise run the tool. -/
def ToolRegistry.execute (reg : ToolRegistry) (tool_name : Option Json) (params : Json) :
    Except ExecError ToolResponse :=
  match reg.lookupTool tool_name with
  | none => .error (.toolNotFound tool_name)
  | some tool =>
      match tool.run params with
      | .ok r => .ok r
      | .error m => .error (.toolRaised m)

-- ---------------------------------------------------------------------
-- handle_mcp_request (app/api/routes.py)
-- ---------------------------------------------------------------------

/-- The allow-list in the `tools/list` branch of `handle_mcp_request`. -/
def enabled_ecosystems : List String := ["gohighlevel", "godaddy", "digitalocean"]

/-- The `result` object of the `initialize` branch. -/
def initializeResult : Json :=
  .obj [("protocolVersion", .str "2025-06-18"),
        ("capabilities",
          .obj [("tools", .obj [("listChanged", .bool true)]),
                ("resources", .obj []),
                ("prompts", .obj []),
                ("logging", .obj [])]),
        ("serverInfo", .obj [("name", .str "medtainer-mcp"), ("version", .str "1.3.0")])]

/-- The condition of the list comprehension in the `tools/list` branch:
`tool.get("ecosystem") in enabled_ecosystems`. -/
def ecosystemEnabled (t : JObj) : Bool :=
  match jget t "ecosystem" with
  | some (.str e) => enabled_ecosystems.contains e
  | _ => false

/-- The `-32601` response of the final `else` branch. -/
def methodNotFoundResponse (request_id : Option Json) (method : Option Json) : JObj :=
  [("jsonrpc", .str "2.0"),
   ("id", idJson request_id),
   ("error", .obj [("code", .num (-32601)),
                   ("message", .str ("Method not found: " ++ methodText method))])]

/-- Embedding of `handle_mcp_request(request_data, response_queue)`: computes the one
response object that the function puts on the queue (every branch,
including the exception handler, sets a non-empty `response_data`). -/
def handle_mcp_request (reg : ToolRegistry) (request_data : JObj) : JObj :=
  let request_id := jget request_data "id"
  let params := paramsObj request_data
  match jget request_data "method" with
  | some (.str "initialize") =>
      [("jsonrpc", .str "2.0"), ("id", idJson request_id), ("result", initializeResult)]
  | some (.str "tools/list") =>
      let filtered_tools := reg.list_tools.filter ecosystemEnabled
      [("jsonrpc", .str "2.0"), ("id", idJson request_id),
       ("result", .obj [("tools", .arr (filtered_tools.map .obj))])]
  | some (.str "tools/call") =>
      let tool_name := jget params "name"
      let tool_args := (jget params "arguments").getD (.obj [])
      match reg.execute tool_name tool_args with
      | .ok result =>
          [("jsonrpc", .str "2.0"), ("id", idJson request_id),
           ("result", .obj result.model_dump)]
      | .error e =>
          [("jsonrpc", .str "2.0"), ("id", idJson request_id),
           ("error", .obj [("code", .num (-32603)), ("message", .str e.message)])]
  | m => methodNotFoundResponse (jget request_data "id") m

/-- Embedding of `process_requests()` inside `sse_handler`: every parsed request from
the body — notification or call — is passed to `handle_mcp_request`,
which queues exactly one response for it, in order. -/
def process_requests (reg : ToolRegistry) (initial_requests : List JObj) : List JObj :=
  initial_requests.map (handle_mcp_request reg)

-- ---------------------------------------------------------------------
-- event_generator (app/api/routes.py, inside sse_handler)
-- ---------------------------------------------------------------------

/-- One chunk yielded on the SSE stream:
`priming` is the `"id: N\n:\n\n"` chunk (an id line followed by a
comment line, no data field), `message` is `"id: N\ndata: <json>\n\n"`,
and `keepalive` is the `": keepalive\n\n"` comment, which carries no id. -/
inductive StreamEvent where
  | priming (event_id : Nat)
  | message (event_id : Nat) (payload : Json)
  | keepalive

/-- The endpoint announcement event sent right after the priming event. -/
def endpointEvent : Json :=
  .obj [("jsonrpc", .str "2.0"),
        ("method", .str "endpoint"),
        ("params", .obj [("uri", .str "https://medtainer.aijesusbro.com/mcp")])]

/-- The response-draining loop of `event_generator`.  `event_id` is
incremented after every id-carrying chunk and never on a keepalive.
Timing nondeterminism (how many 15-second idle timeouts elapse before
each queued response arrives, and before the closing sentinel) is
modelled by the oracle `gaps` (keepalives emitted before each response)
and `trailing` (keepalives emitted after the last response, before the
`None` sentinel ends the loop). -/
def drainLoop : Nat → List JObj → List Nat → Nat → List StreamEvent
  | _, [], _, trailing => List.replicate trailing .keepalive
  | event_id, r :: rs, gaps, trailing =>
      List.replicate (gaps.headD 0) .keepalive
        ++ .message event_id (.obj r) :: drainLoop (event_id + 1) rs gaps.tail trailing

/-- Embedding of `event_generator()`: the full sequence of chunks yielded on one
connection whose queued responses are `responses`.  `event_id` starts at
0 with the priming event, the endpoint event takes id 1, and each
response takes the next id. -/
def event_generator (responses : List JObj) (gaps : List Nat) (trailing : Nat) :
    List StreamEvent :=
  .priming 0 :: .message 1 endpointEvent :: drainLoop 2 responses gaps trailing

/-- The id attached to a chunk, when it has one. -/
def eventId : StreamEvent → Option Nat
  | .priming n => some n
  | .message n _ => some n
  | .keepalive => none

/-- The ids of all id-carrying chunks, in emission order. -/
def idSeq (evs : List StreamEvent) : List Nat := evs.filterMap eventId

/-- The ids of the payload-bearing chunks (those with a `data:` field),
in emission order.  The priming chunk has an id but no data field, so it
is not counted here. -/
def payloadIdSeq (evs : List StreamEvent) : List Nat :=
  evs.filterMap (fun e => match e with | .message n _ => some n | _ => none)

-- ---------------------------------------------------------------------
-- MCP session table (app/api/routes.py)
-- ---------------------------------------------------------------------

/-- One entry of `mcp_sessions`: `{client_info, created_at,
last_activity}`.  Timestamps are seconds. -/
structure SessionData where
  client_info : Json
  created_at : Nat
  last_activity : Nat

/-- The process-wide `mcp_sessions` dict: session id to session data. -/
abbrev SessionTable := List (String × SessionData)

/-- Embedding of `create_session(client_info)`: mint a session under a fresh uuid4
(passed in as `session_id`) with both timestamps set to now. -/
def create_session (table : SessionTable) (session_id : String) (client_info : Json)
    (now : Nat) : SessionTable :=
  (session_id, ⟨client_info, now, now⟩) :: table

/-- Embedding of `get_session(session_id)`: when the id is present, refresh its
`last_activity` to now and return the (refreshed) session; otherwise
return `None`.  There is no expiry check here. -/
def get_session (table : SessionTable) (session_id : String) (now : Nat) :
    Option SessionData × SessionTable :=
  match table.lookup session_id with
  | some sess =>
      (some { sess with last_activity := now },
       table.map (fun p =>
         if p.1 = session_id then (p.1, { p.2 with last_activity := now }) else p))
  | none => (none, table)

/-- Embedding of `cleanup_old_sessions()`: drop every session whose `last_activity`
is before `now - 1 hour`.  No call site in the repository invokes this
function. -/
def cleanup_old_sessions (table : SessionTable) (now : Nat) : SessionTable :=
  table.filter (fun p => ! decide (p.2.last_activity < now - 3600))

-- ---------------------------------------------------------------------
-- sse_handler (app/api/routes.py): auth gate, session creation, stream
-- ---------------------------------------------------------------------

/-- The two headers `sse_handler` reads for authentication;
`request.headers.get(..., "")` yields `""` when a header is absent. -/
structure RequestHeaders where
  authorization : String
  x_api_key : String

/-- Redis modelled as a string-to-string map (the client is created with
`decode_responses=True`). -/
abbrev KVStore := List (String × String)

/-- Embedding of `redis_client.get(k)`. -/
def redis_get (store : KVStore) (k : String) : Option String := store.lookup k

/-- Python `auth_header.startswith("Bearer ")`, on the character
sequence of the header (Python strings are character sequences). -/
def startsWithBearer (s : String) : Bool := s.toList.take 7 == "Bearer ".toList

/-- Python `auth_header[7:]`: the token after the `"Bearer "` prefix. -/
def dropBearer (s : String) : String := ⟨s.toList.drop 7⟩

/-- The authentication gate of `sse_handler`: try the Bearer token
against the `access_token:` namespace first, then fall back to the
configured API key (`settings.mcp_api_key`, an optional string whose
Python truthiness makes `none` and the empty string both unusable).
Returns the `auth_method` on success. -/
def sseAuthenticated (tokens : KVStore) (mcp_api_key : Option String)
    (h : RequestHeaders) : Option String :=
  let viaBearer :=
    if startsWithBearer h.authorization then
      match redis_get tokens ("access_token:" ++ dropBearer h.authorization) with
      | some _ => some "oauth"
      | none => none
    else none
  match viaBearer with
  | some m => some m
  | none =>
      if h.x_api_key = "" then none
      else
        match mcp_api_key with
        | some k => if k ≠ "" ∧ h.x_api_key = k then some "api_key" else none
        | none => none

/-- Embedding of `req.get("method") == "initialize"` as checked in the body-parsing
loop of `sse_handler`. -/
def isInitRequest (r : JObj) : Bool :=
  match jget r "method" with
  | some (.str "initialize") => true
  | _ => false

/-- The `is_initialize` flag: set when any parsed line of the body is an
`initialize` request. -/
def isInitBatch (reqs : List JObj) : Bool := reqs.any isInitRequest

/-- Embedding of `initial_requests[0].get("params", {}).get("clientInfo", {}) if
initial_requests else {}`: the client info captured for a new session is
read from the FIRST request of the batch. -/
def capturedClientInfo (reqs : List JObj) : Json :=
  match reqs with
  | [] => .obj []
  | r :: _ => (jget (paramsObj r) "clientInfo").getD (.obj [])

/-- The constant part of the streaming response headers. -/
def baseHeaders : List (String × String) :=
  [("Cache-Control", "no-cache"), ("Connection", "keep-alive"), ("X-Accel-Buffering", "no")]

/-- Outcome of an authenticated `sse_handler` call: the response
headers, the session table after the call, and the chunks emitted on
the stream. -/
structure SseOutcome where
  headers : List (String × String)
  sessions : SessionTable
  events : List StreamEvent

/-- The post-authentication tail of `sse_handler`: queue one response
per parsed body line via `process_requests`, mint a session (under the
fresh uuid4 `fresh_id`) when the batch contains an `initialize`
request, attach `Mcp-Session-Id` to the headers in that case, and
stream the queued responses. -/
def sse_stream_response (reg : ToolRegistry) (table : SessionTable) (reqs : List JObj)
    (auth_method : String) (fresh_id : String) (now : Nat)
    (gaps : List Nat) (trailing : Nat) : SseOutcome :=
  let responses := process_requests reg reqs
  if isInitBatch reqs then
    let client_info := capturedClientInfo reqs
    let stored := Json.obj [("client_info", client_info), ("auth_method", .str auth_method)]
    { headers := baseHeaders ++ [("Mcp-Session-Id", fresh_id)],
      sessions := create_session table fresh_id stored now,
      events := event_generator responses gaps trailing }
  else
    { headers := baseHeaders,
      sessions := table,
      events := event_generator responses gaps trailing }

/-- Result of `sse_handler`: either the raised
`HTTPException(status_code=401, detail=...)` — which carries no extra
response headers, in particular no `WWW-Authenticate` — or the
streaming response. -/
inductive SseResult where
  | unauthorized (status : Nat) (www_authenticate : Option String) (detail : String)
  | stream (out : SseOutcome)

/-- Embedding of `sse_handler(request)`: authenticate (raising 401 before any stream
chunk is produced on failure), refresh the session named by an
`Mcp-Session-Id` header if one was presented, then parse the body and
stream. -/
def sse_handler (reg : ToolRegistry) (tokens : KVStore) (mcp_api_key : Option String)
    (table : SessionTable) (h : RequestHeaders) (session_header : Option String)
    (reqs : List JObj) (fresh_id : String) (now : Nat)
    (gaps : List Nat) (trailing : Nat) : SseResult :=
  match sseAuthenticated tokens mcp_api_key h with
  | none =>
      .unauthorized 401 none
        "Authentication required. Provide either OAuth Bearer token or X-API-Key header"
  | some auth_method =>
      let table1 :=
        match session_header with
        | some sid => (get_session table sid now).2
        | none => table
      .stream (sse_stream_response reg table1 reqs auth_method fresh_id now gaps trailing)

-- ---------------------------------------------------------------------
-- oauth_token (app/api/routes.py)
-- ---------------------------------------------------------------------

/-- The fixed client identity constants of `routes.py` (the secret is
`os.getenv` with this default; the environment override is not
modelled). -/
def CLIENT_ID : String := "claude-desktop"

def CLIENT_SECRET : String := "medtainer-mcp-secret-2024"

def REDIRECT_URI : String := "https://claude.ai/api/mcp/auth_callback"

/-- The JSON stored under `auth_code:<code>` by `/authorize`.  A Python
`None` or empty-string `code_challenge` (both falsy at the
`if code_challenge:` test of the token endpoint) is modelled as
`none`. -/
structure AuthCodeData where
  client_id : String
  redirect_uri : String
  scope : String
  state : Option String
  code_challenge : Option String
  code_challenge_method : Option String

/-- The `auth_code:` namespace of Redis: code to stored data.
Expiry of the 600-second TTL is modelled as absence from the store. -/
abbrev CodeStore := List (String × AuthCodeData)

/-- Embedding of `redis_client.delete(f"auth_code:{code}")`. -/
def CodeStore.delete (store : CodeStore) (code : String) : CodeStore :=
  store.filter (fun p => ! (p.1 = code : Bool))

/-- The form fields of `POST /token`; optional fields are `None` when
not sent. -/
structure TokenForm where
  grant_type : String
  code : String
  redirect_uri : String
  client_id : String
  client_secret : Option String
  code_verifier : Option String

/-- Outcome of `POST /token`: a raised `HTTPException` or the JSON token
response.  The random `access_token` and `refresh_token` values are not
modelled; the success value carries the echoed `scope.strip()`. -/
inductive TokenResult where
  | httpError (status : Nat) (detail : String)
  | token (scope : String)

/-- Python `scope.strip()`, on the character sequence of the string. -/
def pyStrip (s : String) : String :=
  ⟨((s.toList.dropWhile Char.isWhitespace).reverse.dropWhile Char.isWhitespace).reverse⟩

/-- The tail of `oauth_token` after PKCE or client-secret validation:
the stored `redirect_uri` check, then token issuance. -/
def issueToken (auth_code_data : AuthCodeData) (f : TokenForm) : TokenResult :=
  if auth_code_data.redirect_uri ≠ f.redirect_uri then
    .httpError 400 "Mismatched redirect_uri"
  else
    .token (pyStrip auth_code_data.scope)

/-- Embedding of `oauth_token(...)`: validate the constant-bound form fields, look
the code up, DELETE it (single-use) as soon as it is found, then
validate the stored client id, PKCE verifier or client secret, and the
stored redirect uri.  `challengeOf` abstracts
`base64.urlsafe_b64encode(hashlib.sha256(verifier.encode()).digest()).decode().rstrip("=")`.
Returns the result together with the code store after the call. -/
def oauth_token (challengeOf : String → String) (store : CodeStore) (f : TokenForm) :
    TokenResult × CodeStore :=
  if f.grant_type ≠ "authorization_code" then (.httpError 400 "Invalid grant_type", store)
  else if f.client_id ≠ CLIENT_ID then (.httpError 400 "Invalid client_id", store)
  else if f.redirect_uri ≠ REDIRECT_URI then (.httpError 400 "Invalid redirect_uri", store)
  else
    match store.lookup f.code with
    | none => (.httpError 400 "Invalid or expired authorization code", store)
    | some auth_code_data =>
        let store1 := store.delete f.code
        if auth_code_data.client_id ≠ f.client_id then
          (.httpError 400 "Mismatched client_id", store1)
        else
          match auth_code_data.code_challenge with
          | some code_challenge =>
              match f.code_verifier with
              | none => (.httpError 400 "code_verifier required for PKCE", store1)
              | some code_verifier =>
                  if challengeOf code_verifier ≠ code_challenge then
                    (.httpError 400 "Invalid code_verifier", store1)
                  else (issueToken auth_code_data f, store1)
          | none =>
              match f.client_secret with
              | none => (.httpError 400 "Invalid client_secret", store1)
              | some client_secret =>
                  if client_secret ≠ CLIENT_SECRET then
                    (.httpError 400 "Invalid client_secret", store1)
                  else (issueToken auth_code_data f, store1)

-- ---------------------------------------------------------------------
-- Helper lemmas
-- ---------------------------------------------------------------------

theorem idSeq_replicate_keepalive (n : Nat) :
    idSeq (List.replicate n .keepalive) = [] := by
  induction n with
  | zero => rfl
  | succ n ih => simp [idSeq, List.replicate_succ, eventId, ih]

theorem payloadIdSeq_replicate_keepalive (n : Nat) :
    payloadIdSeq (List.replicate n .keepalive) = [] := by
  induction n with
  | zero => rfl
  | succ n ih => simp [payloadIdSeq, List.replicate_succ, ih]

theorem idSeq_drainLoop (rs : List JObj) :
    ∀ (eid : Nat) (gaps : List Nat) (t : Nat),
      idSeq (drainLoop eid rs gaps t) = List.range' eid rs.length := by
  induction rs with
  | nil =>
      intro eid gaps t
      simp [drainLoop, idSeq_replicate_keepalive t]
  | cons r rs ih =>
      intro eid gaps t
      have hrep := idSeq_replicate_keepalive (gaps.headD 0)
      simp only [drainLoop, idSeq, List.filterMap_append, List.filterMap_cons] at *
      simp [hrep, eventId, ih (eid + 1) gaps.tail t, List.range'_succ, idSeq]

theorem payloadIdSeq_drainLoop (rs : List JObj) :
    ∀ (eid : Nat) (gaps : List Nat) (t : Nat),
      payloadIdSeq (drainLoop eid rs gaps t) = List.range' eid rs.length := by
  induction rs with
  | nil =>
      intro eid gaps t
      simp [drainLoop, payloadIdSeq_replicate_keepalive t]
  | cons r rs ih =>
      intro eid gaps t
      have hrep := payloadIdSeq_replicate_keepalive (gaps.headD 0)
      simp only [drainLoop, payloadIdSeq, List.filterMap_append, List.filterMap_cons] at *
      simp [hrep, ih (eid + 1) gaps.tail t, List.range'_succ, payloadIdSeq]

/-- A small fixture: the empty tool registry. -/
def emptyRegistry : ToolRegistry := ⟨[]⟩

-- ---------------------------------------------------------------------
-- C1
-- ---------------------------------------------------------------------

/-- A notification line (no `id` field) as parsed from a request body. -/
def notifReq : JObj :=
  [("jsonrpc", .str "2.0"), ("method", .str "notifications/initialized")]

/-- C1: for a stream opened with a body of N calls and M notifications,
the code queues one response per parsed line — N + M responses, not N:
`process_requests` passes every parsed request to `handle_mcp_request`,
which always queues a response, so a body holding a single notification
(N = 0, M = 1) produces one response event (with `"id": null`), where
the claim requires zero. -/
theorem c1_notifications_also_get_responses :
    (∀ (reg : ToolRegistry) (reqs : List JObj),
        (process_requests reg reqs).length = reqs.length)
    ∧ process_requests emptyRegistry [notifReq] =
        [[("jsonrpc", .str "2.0"), ("id", Json.null),
          ("error", .obj [("code", .num (-32601)),
                          ("message", .str "Method not found: notifications/initialized")])]] := by
  constructor
  · intro reg reqs; simp [process_requests]
  · rfl

-- ---------------------------------------------------------------------
-- C7
-- ---------------------------------------------------------------------

/-- A session table holding one session whose `last_activity` is two
hours (7200 s) before the lookup time. -/
def expiredTable : SessionTable := [("s1", ⟨.obj [], 0, 0⟩)]

/-- C7: a session idle for two hours is still returned by
`get_session` (which even refreshes its `last_activity`), so an expired
session is NOT indistinguishable from an absent one; the reaper
`cleanup_old_sessions` would remove it, but no call site in the
repository ever invokes that function, and `get_session` performs no
lazy expiry check. -/
theorem c7_expired_session_still_returned :
    (get_session expiredTable "s1" 7200).1 = some ⟨.obj [], 0, 7200⟩
    ∧ cleanup_old_sessions expiredTable 7200 = []
    ∧ (get_session expiredTable "s2" 7200).1 = none := by
  exact ⟨rfl, rfl, rfl⟩

-- ---------------------------------------------------------------------
-- C5
-- ---------------------------------------------------------------------

/-- C5 counterexample: on a connection with an empty body and no idle
timeouts, the payload-bearing events (those with a `data:` field) carry
the id sequence `[1]`, not a sequence starting at 0 — id 0 is attached
to the priming chunk, which has no data field. -/
theorem c5_payload_ids_do_not_start_at_zero :
    payloadIdSeq (event_generator [] [] 0) = [1]
    ∧ ¬ (payloadIdSeq (event_generator [] [] 0) =
          List.range (payloadIdSeq (event_generator [] [] 0)).length) := by
  exact ⟨rfl, by decide⟩

/-- C5 amended: within one connection the event ids over ALL id-carrying
chunks (the priming chunk included) form exactly `0, 1, ..., n + 1` for
`n` queued responses — strictly increasing from 0, no gaps, no repeats —
while the payload-bearing (`data:`) events carry `1, ..., n + 1`, and
keepalive heartbeats carry no id, regardless of how they interleave. -/
theorem c5_event_ids_strictly_increasing (responses : List JObj)
    (gaps : List Nat) (trailing : Nat) :
    idSeq (event_generator responses gaps trailing) = List.range (responses.length + 2)
    ∧ payloadIdSeq (event_generator responses gaps trailing) =
        List.range' 1 (responses.length + 1)
    ∧ eventId .keepalive = none := by
  refine ⟨?_, ?_, rfl⟩
  · have h := idSeq_drainLoop responses 2 gaps trailing
    simp only [event_generator, idSeq, List.filterMap_cons, eventId] at *
    simp [h, List.range_eq_range', List.range'_succ, idSeq]
  · have h := payloadIdSeq_drainLoop responses 2 gaps trailing
    simp only [event_generator, payloadIdSeq, List.filterMap_cons] at *
    simp [h, List.range'_succ, payloadIdSeq]

-- ---------------------------------------------------------------------
-- C2
-- ---------------------------------------------------------------------

/-- The JSON-RPC error code of a response object, when it has one. -/
def errorCode (resp : JObj) : Option Int :=
  match jget resp "error" with
  | some (.obj e) => match jget e "code" with | some (.num c) => some c | _ => none
  | _ => none

/-- A `tools/call` request naming a tool that is not registered. -/
def callUnknownToolReq : JObj :=
  [("jsonrpc", .str "2.0"), ("id", .num 7), ("method", .str "tools/call"),
   ("params", .obj [("name", .str "does_not_exist")])]

/-- C2 counterexample: against the empty registry, a `tools/call` for an
unregistered name is answered with error code -32603, not -32601: the
`ToolNotFoundError` raised by the registry is caught by the generic
`except Exception` handler of `handle_mcp_request`, which always uses
-32603. -/
theorem c2_unknown_tool_code_is_not_32601 :
    errorCode (handle_mcp_request emptyRegistry callUnknownToolReq) = some (-32603)
    ∧ errorCode (handle_mcp_request emptyRegistry callUnknownToolReq) ≠ some (-32601) := by
  exact ⟨rfl, by decide⟩

/-- C2 amended: a `tools/call` request whose `name` is not a registered
tool is answered on the stream by a JSON-RPC error object with code
-32603 (the generic exception path; `ToolNotFoundError` is not mapped to
-32601), correlated to the request id, and the connection remains open:
every other request in the batch, before or after it, still gets its
own response. -/
theorem c2_unknown_tool_yields_32603 (reg : ToolRegistry) (req : JObj)
    (hm : jget req "method" = some (.str "tools/call"))
    (hname : reg.lookupTool (jget (paramsObj req) "name") = none) :
    handle_mcp_request reg req =
      [("jsonrpc", .str "2.0"), ("id", idJson (jget req "id")),
       ("error", .obj [("code", .num (-32603)),
         ("message",
          .str (ExecError.toolNotFound (jget (paramsObj req) "name")).message)])]
    ∧ ∀ (reqs1 reqs2 : List JObj),
        process_requests reg (reqs1 ++ req :: reqs2) =
          process_requests reg reqs1
            ++ handle_mcp_request reg req :: process_requests reg reqs2 := by
  constructor
  · simp [handle_mcp_request, hm, ToolRegistry.execute, hname]
  · intro reqs1 reqs2; simp [process_requests]

/-- C2 witness. -/
theorem c2_witness :
    jget callUnknownToolReq "method" = some (.str "tools/call")
    ∧ handle_mcp_request emptyRegistry callUnknownToolReq =
        [("jsonrpc", .str "2.0"), ("id", .num 7),
         ("error", .obj [("code", .num (-32603)),
           ("message", .str "No tool registered with name does_not_exist")])] := by
  refine ⟨rfl, ?_⟩
  have h := c2_unknown_tool_yields_32603 emptyRegistry callUnknownToolReq rfl rfl
  exact h.1

-- ---------------------------------------------------------------------
-- C10
-- ---------------------------------------------------------------------

/-- The `tools` array inside a `tools/list` response object. -/
def listedTools (resp : JObj) : List Json :=
  match jget resp "result" with
  | some (.obj r) =>
      match jget r "tools" with
      | some (.arr ts) => ts
      | _ => []
  | _ => []

theorem jget_serialize_ecosystem (t : BaseTool) :
    jget t.serialize "ecosystem" = some (.str t.metadata.ecosystem) := rfl

theorem filter_map_comm {α β : Type} (f : α → β) (p : β → Bool) (l : List α) :
    (l.map f).filter p = (l.filter (fun x => p (f x))).map f := by
  induction l with
  | nil => rfl
  | cons x xs ih => by_cases h : p (f x) <;> simp [h, ih]

/-- C10: a `tools/list` request is answered with exactly the registered
tools whose ecosystem is in `{gohighlevel, godaddy, digitalocean}`, in
registration order, and the serialization of a tool from any other
ecosystem never appears in the result. -/
theorem c10_tools_list_is_ecosystem_filter (reg : ToolRegistry) (req : JObj)
    (hm : jget req "method" = some (.str "tools/list")) :
    listedTools (handle_mcp_request reg req) =
      ((reg.tools.map Prod.snd).filter
          (fun t => enabled_ecosystems.contains t.metadata.ecosystem)).map
        (fun t => .obj t.serialize)
    ∧ ∀ t : BaseTool, enabled_ecosystems.contains t.metadata.ecosystem = false →
        Json.obj t.serialize ∉ listedTools (handle_mcp_request reg req) := by
  have h1 : handle_mcp_request reg req =
      [("jsonrpc", .str "2.0"), ("id", idJson (jget req "id")),
       ("result", .obj [("tools", .arr
         ((reg.list_tools.filter ecosystemEnabled).map .obj))])] := by
    simp [handle_mcp_request, hm]
  have hchar : listedTools (handle_mcp_request reg req) =
      ((reg.tools.map Prod.snd).filter
          (fun t => enabled_ecosystems.contains t.metadata.ecosystem)).map
        (fun t => .obj t.serialize) := by
    rw [h1]
    have h2 : listedTools
        [("jsonrpc", .str "2.0"), ("id", idJson (jget req "id")),
         ("result", .obj [("tools", .arr
           ((reg.list_tools.filter ecosystemEnabled).map .obj))])] =
        (reg.list_tools.filter ecosystemEnabled).map .obj := rfl
    rw [h2]
    have h3 : reg.list_tools = (reg.tools.map Prod.snd).map BaseTool.serialize := by
      simp [ToolRegistry.list_tools, List.map_map]
    rw [h3, filter_map_comm, List.map_map]
    rfl
  refine ⟨hchar, ?_⟩
  intro t ht hmem
  rw [hchar] at hmem
  rcases List.mem_map.mp hmem with ⟨t2, ht2, heq⟩
  rcases List.mem_filter.mp ht2 with ⟨_, ht2eco⟩
  have hser : t2.serialize = t.serialize := by
    injection heq
  have : (Json.str t2.metadata.ecosystem : Json) = .str t.metadata.ecosystem := by
    have h1 := jget_serialize_ecosystem t2
    have h2 := jget_serialize_ecosystem t
    rw [hser] at h1
    rw [h1] at h2
    exact Option.some.inj h2
  have heco : t2.metadata.ecosystem = t.metadata.ecosystem := by
    injection this
  rw [heco] at ht2eco
  rw [ht] at ht2eco
  exact Bool.false_ne_true ht2eco

/-- C10 witness: a two-tool registry with one enabled-ecosystem tool and
one tool from another ecosystem. -/
def ghlTool : BaseTool :=
  ⟨⟨"ghl.read", "read contacts", "gohighlevel", "0.1.0", [], none, true⟩,
   fun _ => .ok ⟨"ok", [], []⟩⟩

def amazonTool : BaseTool :=
  ⟨⟨"amazon.orders", "list orders", "amazon", "0.1.0", [], none, true⟩,
   fun _ => .ok ⟨"ok", [], []⟩⟩

def twoToolRegistry : ToolRegistry :=
  ⟨[("ghl.read", ghlTool), ("amazon.orders", amazonTool)]⟩

def listToolsReq : JObj :=
  [("jsonrpc", .str "2.0"), ("id", .num 3), ("method", .str "tools/list")]

/-- C10 witness. -/
theorem c10_witness :
    jget listToolsReq "method" = some (.str "tools/list")
    ∧ listedTools (handle_mcp_request twoToolRegistry listToolsReq) =
        [.obj ghlTool.serialize]
    ∧ Json.obj amazonTool.serialize ∉
        listedTools (handle_mcp_request twoToolRegistry listToolsReq) := by
  have h := c10_tools_list_is_ecosystem_filter twoToolRegistry listToolsReq rfl
  exact ⟨rfl, by rw [h.1]; rfl, h.2 amazonTool rfl⟩

-- ---------------------------------------------------------------------
-- C6
-- ---------------------------------------------------------------------

/-- The property asserted by the spec for a rejected streaming request:
the rejection carries a `WWW-Authenticate` challenge header. -/
def carriesChallenge : SseResult → Prop
  | .unauthorized _ (some _) _ => True
  | _ => False

/-- Headers of a request presenting no credentials at all. -/
def noAuthHeaders : RequestHeaders := ⟨"", ""⟩

/-- C6 counterexample: a credential-less request to the streaming
endpoint (empty token store, no API key configured) is rejected with a
bare `HTTPException(401, detail)`, which carries no `WWW-Authenticate`
header — the challenge header is attached only by `HEAD /mcp` and the
root endpoint, not by `sse_handler`. -/
theorem c6_reject_has_no_challenge_header :
    sse_handler emptyRegistry [] none [] noAuthHeaders none [] "sid" 0 [] 0 =
      .unauthorized 401 none
        "Authentication required. Provide either OAuth Bearer token or X-API-Key header"
    ∧ ¬ carriesChallenge
        (sse_handler emptyRegistry [] none [] noAuthHeaders none [] "sid" 0 [] 0) := by
  exact ⟨rfl, fun h => h⟩

/-- C6 amended: every request to the streaming endpoint that presents
neither a bearer token found in the access-token store nor an API key
matching the configured secret is rejected with HTTP 401 before any
stream event is emitted — but the 401 raised by `sse_handler` carries
no `WWW-Authenticate` challenge header. -/
theorem c6_unauthenticated_request_rejected (reg : ToolRegistry) (tokens : KVStore)
    (mcp_api_key : Option String) (table : SessionTable) (h : RequestHeaders)
    (session_header : Option String) (reqs : List JObj) (fresh_id : String)
    (now : Nat) (gaps : List Nat) (trailing : Nat)
    (hbearer : ¬ (startsWithBearer h.authorization = true
        ∧ (redis_get tokens ("access_token:" ++ dropBearer h.authorization)).isSome))
    (hkey : ∀ k, mcp_api_key = some k → k ≠ "" → h.x_api_key ≠ k) :
    sse_handler reg tokens mcp_api_key table h session_header reqs fresh_id now
        gaps trailing =
      .unauthorized 401 none
        "Authentication required. Provide either OAuth Bearer token or X-API-Key header" := by
  have hauth : sseAuthenticated tokens mcp_api_key h = none := by
    unfold sseAuthenticated
    by_cases hb : startsWithBearer h.authorization
    · have hnone : redis_get tokens ("access_token:" ++ dropBearer h.authorization) = none := by
        cases hg : redis_get tokens ("access_token:" ++ dropBearer h.authorization) with
        | none => rfl
        | some v => exact absurd ⟨hb, by rw [hg]; rfl⟩ hbearer
      simp only [hb, if_true, hnone]
      by_cases hx : h.x_api_key = ""
      · simp [hx]
      · simp only [hx, if_false]
        cases hkc : mcp_api_key with
        | none => rfl
        | some k =>
            by_cases hke : k = ""
            · simp [hke]
            · have := hkey k hkc hke
              simp [this]
    · simp only [hb, if_false]
      by_cases hx : h.x_api_key = ""
      · simp [hx]
      · simp only [hx, if_false]
        cases hkc : mcp_api_key with
        | none => rfl
        | some k =>
            by_cases hke : k = ""
            · simp [hke]
            · have := hkey k hkc hke
              simp [this]
  unfold sse_handler
  rw [hauth]

/-- C6 witness. -/
theorem c6_witness :
    sse_handler emptyRegistry [] (some "secret-key") [] ⟨"Basic abc", "wrong-key"⟩
        none [] "sid" 0 [] 0 =
      .unauthorized 401 none
        "Authentication required. Provide either OAuth Bearer token or X-API-Key header" := by
  apply c6_unauthenticated_request_rejected
  · intro hc
    exact absurd hc.1 (by decide)
  · intro k hk hke
    cases hk
    decide

-- ---------------------------------------------------------------------
-- C8
-- ---------------------------------------------------------------------

/-- A `tools/list` call placed first in a batch. -/
def listReqFirst : JObj :=
  [("jsonrpc", .str "2.0"), ("id", .num 1), ("method", .str "tools/list")]

/-- An `initialize` call with client info, placed second in a batch. -/
def initReqSecond : JObj :=
  [("jsonrpc", .str "2.0"), ("id", .num 2), ("method", .str "initialize"),
   ("params", .obj [("clientInfo", .obj [("name", .str "x")])])]

/-- C8 counterexample: for the batch `[tools/list, initialize]`, the
session is created (the batch contains an `initialize`), but the
captured client info is read from `initial_requests[0]` — the
`tools/list` call, which has no `clientInfo` — not from the params of
the `initialize` request. -/
theorem c8_client_info_not_from_init_request :
    (sse_stream_response emptyRegistry [] [listReqFirst, initReqSecond]
        "api_key" "sid" 0 [] 0).sessions =
      [("sid", ⟨Json.obj [("client_info", Json.obj []),
                          ("auth_method", Json.str "api_key")], 0, 0⟩)]
    ∧ jget (paramsObj initReqSecond) "clientInfo" = some (.obj [("name", .str "x")])
    ∧ Json.obj [] ≠ Json.obj [("name", .str "x")] := by
  refine ⟨rfl, rfl, ?_⟩
  intro hcontra
  injection hcontra with h2
  simp at h2

/-- C8 amended: for every batch containing at least one `initialize`
request, exactly one new session is created (one entry added to the
table, under the fresh id), its id is returned in the `Mcp-Session-Id`
response header, the captured client_info of the session is taken from
the params of the FIRST request of the batch (which coincides with the
params of the initialize request only when the initialize request comes
first), and every `initialize` request in the batch — duplicates
included — is still answered with a response carrying its own id. -/
theorem c8_initialize_creates_one_session (reg : ToolRegistry) (table : SessionTable)
    (reqs : List JObj) (auth_method : String) (fresh_id : String) (now : Nat)
    (gaps : List Nat) (trailing : Nat)
    (hinit : isInitBatch reqs = true) :
    (sse_stream_response reg table reqs auth_method fresh_id now gaps trailing).sessions =
        (fresh_id, ⟨Json.obj [("client_info", capturedClientInfo reqs),
                              ("auth_method", .str auth_method)], now, now⟩) :: table
    ∧ (sse_stream_response reg table reqs auth_method fresh_id now gaps
          trailing).headers.lookup "Mcp-Session-Id" = some fresh_id
    ∧ (∀ r ∈ reqs, isInitRequest r = true →
        handle_mcp_request reg r =
          [("jsonrpc", .str "2.0"), ("id", idJson (jget r "id")),
           ("result", initializeResult)])
    ∧ (sse_stream_response reg table reqs auth_method fresh_id now gaps
          trailing).events =
        event_generator (process_requests reg reqs) gaps trailing := by
  refine ⟨?_, ?_, ?_, ?_⟩
  · simp [sse_stream_response, hinit, create_session]
  · simp [sse_stream_response, hinit, baseHeaders, List.lookup]
  · intro r _ hr
    unfold isInitRequest at hr
    split at hr
    · rename_i hmeth
      simp [handle_mcp_request, hmeth]
    · exact absurd hr (by decide)
  · simp [sse_stream_response, hinit]

/-- C8 witness. -/
theorem c8_witness :
    isInitBatch [listReqFirst, initReqSecond] = true
    ∧ (sse_stream_response emptyRegistry [] [listReqFirst, initReqSecond]
          "api_key" "sid" 0 [] 0).headers.lookup "Mcp-Session-Id" = some "sid"
    ∧ handle_mcp_request emptyRegistry initReqSecond =
        [("jsonrpc", .str "2.0"), ("id", .num 2), ("result", initializeResult)] := by
  have h := c8_initialize_creates_one_session emptyRegistry [] [listReqFirst, initReqSecond]
      "api_key" "sid" 0 [] 0 rfl
  refine ⟨rfl, h.2.1, ?_⟩
  have h3 := h.2.2.1 initReqSecond (by simp) rfl
  exact h3

-- ---------------------------------------------------------------------
-- C3, C4, C9
-- ---------------------------------------------------------------------

theorem lookup_delete_self (store : CodeStore) (code : String) :
    (store.delete code).lookup code = none := by
  induction store with
  | nil => rfl
  | cons p ps ih =>
      rcases p with ⟨k, v⟩
      by_cases h : k = code
      · simpa [CodeStore.delete, List.filter_cons, h] using ih
      · have h1 : CodeStore.delete ((k, v) :: ps) code = (k, v) :: CodeStore.delete ps code := by
          simp [CodeStore.delete, List.filter_cons, h]
        rw [h1]
        have hne : (code == k) = false := beq_eq_false_iff_ne.mpr (Ne.symm h)
        simp [List.lookup, hne, ih]

/-- After the early constant checks pass and the code is found, the
code-store side effect of `oauth_token` is exactly the single-use
delete, whatever the later validations decide. -/
theorem oauth_token_store_after_found (challengeOf : String → String)
    (store : CodeStore) (f : TokenForm) (d : AuthCodeData)
    (hg : f.grant_type = "authorization_code") (hc : f.client_id = CLIENT_ID)
    (hr : f.redirect_uri = REDIRECT_URI)
    (hfound : store.lookup f.code = some d) :
    (oauth_token challengeOf store f).2 = store.delete f.code := by
  unfold oauth_token
  simp only [hg, hc, hr, hfound, ne_eq, not_true_eq_false, if_false, ite_false]
  split
  · rfl
  · split
    · split
      · rfl
      · split
        · rfl
        · rfl
    · split
      · rfl
      · split
        · rfl
        · rfl

/-- The PKCE-or-secret hypothesis under which redemption succeeds:
exactly the check `oauth_token` performs on the stored code data. -/
def credentialsOk (challengeOf : String → String) (d : AuthCodeData)
    (f : TokenForm) : Prop :=
  match d.code_challenge with
  | some ch => ∃ v, f.code_verifier = some v ∧ challengeOf v = ch
  | none => f.client_secret = some CLIENT_SECRET

/-- Core single-use behaviour of `oauth_token`, shared by the
single-use, PKCE, and consume-on-failure theorems below. -/
theorem oauth_token_single_use_core (challengeOf : String → String) (store : CodeStore)
    (f : TokenForm) (d : AuthCodeData)
    (hg : f.grant_type = "authorization_code") (hc : f.client_id = CLIENT_ID)
    (hr : f.redirect_uri = REDIRECT_URI)
    (hfound : store.lookup f.code = some d) :
    (d.client_id = CLIENT_ID → d.redirect_uri = REDIRECT_URI →
      credentialsOk challengeOf d f →
      (oauth_token challengeOf store f).1 = .token (pyStrip d.scope))
    ∧ (oauth_token challengeOf store f).2.lookup f.code = none
    ∧ (∀ f2 : TokenForm, f2.code = f.code →
        f2.grant_type = "authorization_code" → f2.client_id = CLIENT_ID →
        f2.redirect_uri = REDIRECT_URI →
        (oauth_token challengeOf (oauth_token challengeOf store f).2 f2).1 =
          .httpError 400 "Invalid or expired authorization code") := by
  have hstore := oauth_token_store_after_found challengeOf store f d hg hc hr hfound
  have hgone : (oauth_token challengeOf store f).2.lookup f.code = none := by
    rw [hstore]; exact lookup_delete_self store f.code
  refine ⟨?_, hgone, ?_⟩
  · intro hdc hdr hcred
    unfold oauth_token
    simp only [hg, hc, hr, hfound, ne_eq, not_true_eq_false, if_false, ite_false]
    rw [hdc]
    simp only [eq_self_iff_true, not_true_eq_false, if_false, ite_false]
    unfold credentialsOk at hcred
    cases hch : d.code_challenge with
    | some ch =>
        rw [hch] at hcred
        obtain ⟨v, hv, hcv⟩ := hcred
        rw [hv]
        simp [hcv, issueToken, hdr, hr]
    | none =>
        rw [hch] at hcred
        rw [hcred]
        simp [issueToken, hdr, hr]
  · intro f2 hcode hg2 hc2 hr2
    generalize hS : (oauth_token challengeOf store f).2 = S at hgone ⊢
    unfold oauth_token
    simp only [hg2, hc2, hr2, ne_eq, not_true_eq_false, if_false, ite_false]
    rw [hcode, hgone]

/-- C3: authorization codes are single-use.  With the constant-bound
form fields correct and the code present (valid, unexpired): (a) a
redemption whose stored client id and redirect uri match and whose PKCE
verifier or client secret is correct succeeds; (b) any attempt that
found the code leaves the store without it; (c) every later attempt
presenting the same code (with well-formed constant fields, so that it
reaches the code lookup) fails with the invalid/expired-code error. -/
theorem c3_auth_code_single_use (challengeOf : String → String) (store : CodeStore)
    (f : TokenForm) (d : AuthCodeData)
    (hg : f.grant_type = "authorization_code") (hc : f.client_id = CLIENT_ID)
    (hr : f.redirect_uri = REDIRECT_URI)
    (hfound : store.lookup f.code = some d) :
    (d.client_id = CLIENT_ID → d.redirect_uri = REDIRECT_URI →
      credentialsOk challengeOf d f →
      (oauth_token challengeOf store f).1 = .token (pyStrip d.scope))
    ∧ (oauth_token challengeOf store f).2.lookup f.code = none
    ∧ (∀ f2 : TokenForm, f2.code = f.code →
        f2.grant_type = "authorization_code" → f2.client_id = CLIENT_ID →
        f2.redirect_uri = REDIRECT_URI →
        (oauth_token challengeOf (oauth_token challengeOf store f).2 f2).1 =
          .httpError 400 "Invalid or expired authorization code") :=
  oauth_token_single_use_core challengeOf store f d hg hc hr hfound

/-- C3 witness fixtures: a PKCE code redeemed with the matching
verifier, the challenge function modelled by `id`. -/
def c3data : AuthCodeData :=
  ⟨"claude-desktop", "https://claude.ai/api/mcp/auth_callback", "read", none,
   some "ver", some "S256"⟩

def c3store : CodeStore := [("c1", c3data)]

def c3form : TokenForm :=
  ⟨"authorization_code", "c1", "https://claude.ai/api/mcp/auth_callback",
   "claude-desktop", none, some "ver"⟩

/-- C3 witness. -/
theorem c3_witness :
    (oauth_token id c3store c3form).1 = .token (pyStrip "read")
    ∧ (oauth_token id c3store c3form).2.lookup "c1" = none
    ∧ (oauth_token id (oauth_token id c3store c3form).2 c3form).1 =
        .httpError 400 "Invalid or expired authorization code" := by
  have h := c3_auth_code_single_use id c3store c3form c3data rfl rfl rfl rfl
  exact ⟨h.1 rfl rfl ⟨"ver", rfl, rfl⟩, h.2.1, h.2.2 c3form rfl rfl rfl rfl⟩

/-- C4: PKCE S256 binding.  For a code stored with
`code_challenge = challengeOf verifier` (`challengeOf` abstracting
base64url(sha256(·)) without padding; assumed injective, i.e. the hash
is collision-free on the strings involved), an exchange presenting that
exact verifier succeeds, one presenting any other verifier fails with
HTTP 400 `Invalid code_verifier`, and one presenting no verifier fails
with HTTP 400 `code_verifier required for PKCE`. -/
theorem c4_pkce_binds_verifier (challengeOf : String → String) (store : CodeStore)
    (d : AuthCodeData) (code v : String)
    (hinj : Function.Injective challengeOf)
    (hfound : store.lookup code = some d)
    (hdc : d.client_id = CLIENT_ID) (hdr : d.redirect_uri = REDIRECT_URI)
    (hch : d.code_challenge = some (challengeOf v)) :
    ∀ f : TokenForm, f.grant_type = "authorization_code" → f.client_id = CLIENT_ID →
      f.redirect_uri = REDIRECT_URI → f.code = code →
      ((f.code_verifier = some v →
          (oauth_token challengeOf store f).1 = .token (pyStrip d.scope))
       ∧ (∀ v2, f.code_verifier = some v2 → v2 ≠ v →
           (oauth_token challengeOf store f).1 =
             .httpError 400 "Invalid code_verifier")
       ∧ (f.code_verifier = none →
           (oauth_token challengeOf store f).1 =
             .httpError 400 "code_verifier required for PKCE")) := by
  intro f hg hc hr hcode
  subst hcode
  refine ⟨?_, ?_, ?_⟩
  · intro hv
    have h := oauth_token_single_use_core challengeOf store f d hg hc hr hfound
    exact h.1 hdc hdr (by rw [credentialsOk, hch]; exact ⟨v, hv, rfl⟩)
  · intro v2 hv2 hne
    unfold oauth_token
    simp only [hg, hc, hr, hfound, ne_eq, not_true_eq_false, if_false, ite_false]
    rw [hdc]
    simp only [eq_self_iff_true, not_true_eq_false, if_false, ite_false]
    rw [hch, hv2]
    have : ¬ challengeOf v2 = challengeOf v := fun hcontra => hne (hinj hcontra)
    simp [this]
  · intro hv
    unfold oauth_token
    simp only [hg, hc, hr, hfound, ne_eq, not_true_eq_false, if_false, ite_false]
    rw [hdc]
    simp only [eq_self_iff_true, not_true_eq_false, if_false, ite_false]
    rw [hch, hv]

/-- C4 witness fixtures: the same stored code redeemed with the exact
verifier, with a wrong verifier, and with no verifier. -/
def c4formWrong : TokenForm :=
  ⟨"authorization_code", "c1", "https://claude.ai/api/mcp/auth_callback",
   "claude-desktop", none, some "other"⟩

def c4formNone : TokenForm :=
  ⟨"authorization_code", "c1", "https://claude.ai/api/mcp/auth_callback",
   "claude-desktop", none, none⟩

/-- C4 witness. -/
theorem c4_witness :
    (oauth_token id c3store c3form).1 = .token (pyStrip "read")
    ∧ (oauth_token id c3store c4formWrong).1 =
        .httpError 400 "Invalid code_verifier"
    ∧ (oauth_token id c3store c4formNone).1 =
        .httpError 400 "code_verifier required for PKCE" := by
  have h := c4_pkce_binds_verifier id c3store c3data "c1" "ver"
      Function.injective_id rfl rfl rfl rfl
  refine ⟨(h c3form rfl rfl rfl rfl).1 rfl, ?_, ?_⟩
  · exact (h c4formWrong rfl rfl rfl rfl).2.1 "other" rfl (by decide)
  · exact (h c4formNone rfl rfl rfl rfl).2.2 rfl

/-- C9: the token endpoint deletes the authorization code before the
stored-client-id, PKCE, client-secret, and redirect-uri validations:
whenever the code is found, the store afterwards is exactly the store
with the code deleted — whatever the later checks decide — so even when
the attempt fails with HTTP 400 on one of those checks, a subsequent
attempt presenting the same code (with the correct constant-bound
fields) fails with the invalid/expired-code error. -/
theorem c9_code_deleted_before_validation (challengeOf : String → String)
    (store : CodeStore) (f : TokenForm) (d : AuthCodeData)
    (hg : f.grant_type = "authorization_code") (hc : f.client_id = CLIENT_ID)
    (hr : f.redirect_uri = REDIRECT_URI)
    (hfound : store.lookup f.code = some d) :
    (oauth_token challengeOf store f).2 = store.delete f.code
    ∧ (oauth_token challengeOf store f).2.lookup f.code = none
    ∧ (∀ f2 : TokenForm, f2.code = f.code →
        f2.grant_type = "authorization_code" → f2.client_id = CLIENT_ID →
        f2.redirect_uri = REDIRECT_URI →
        (oauth_token challengeOf (oauth_token challengeOf store f).2 f2).1 =
          .httpError 400 "Invalid or expired authorization code") := by
  have hstore := oauth_token_store_after_found challengeOf store f d hg hc hr hfound
  have h := oauth_token_single_use_core challengeOf store f d hg hc hr hfound
  exact ⟨hstore, h.2.1, h.2.2⟩

/-- C9 witness fixture: an attempt that finds the code but fails PKCE
validation with a wrong verifier (HTTP 400), after which the correct
attempt also fails: the code was consumed by the failing attempt. -/
theorem c9_witness :
    (oauth_token id c3store c4formWrong).1 =
        .httpError 400 "Invalid code_verifier"
    ∧ (oauth_token id c3store c4formWrong).2 = []
    ∧ (oauth_token id (oauth_token id c3store c4formWrong).2 c3form).1 =
        .httpError 400 "Invalid or expired authorization code" := by
  have h := c9_code_deleted_before_validation id c3store c4formWrong c3data
      rfl rfl rfl rfl
  refine ⟨rfl, ?_, h.2.2 c3form rfl rfl rfl rfl⟩
  rw [h.1]
  rfl

end MCPServer
